import Mathlib

/-!
Verification development for the pagination / normalization / schema-inference
core of `code/data_collection/api_explorer.py`.

The Python functions are shallowly embedded as Lean functions.  Python's JSON
values are modelled by the inductive `Json`; Python `dict`s coming from JSON
are association lists (JSON objects have no duplicate keys, and lookups take
the first match).  Python exceptions are modelled with `Except PyErr`.
Python floats are modelled as rationals; the standard-library calls
(`json.loads`, `ET.fromstring`, `pandas` primitives, `str`, `int`, `round`)
are modelled by explicit Lean functions whose doc comments state the
modelled semantics.
-/

set_option autoImplicit false
set_option maxRecDepth 8000

namespace ApiExplorer

/-- Python exceptions that the embedded code can raise:
`parseError` stands for `json.JSONDecodeError` / `xml.etree.ElementTree.ParseError`,
`attributeError` for `AttributeError` (attribute lookup on a non-dict),
`keyError` for `KeyError` (raised by `pandas.DataFrame.sort_values` on a
missing column label). -/
inductive PyErr where
  | parseError
  | attributeError
  | keyError
deriving DecidableEq

/-- A parsed JSON value (also used for the Python values flowing through the
script).  Python `None` is `null`; numbers are modelled as rationals. -/
inductive Json where
  | null
  | bool (b : Bool)
  | num (q : ℚ)
  | str (s : String)
  | arr (xs : List Json)
  | obj (kvs : List (String × Json))

/-- A `Record` is one normalized item: a Python dict from field name to value. -/
abbrev Record := List (String × Json)

/-- First-match association-list lookup, modelling Python `dict` access
(JSON objects have unique keys, so first-match agrees with `dict`). -/
def lookup? : List (String × Json) → String → Option Json
  | [], _ => none
  | (k', v) :: rest, k => if k' = k then some v else lookup? rest k

/-- Python `k in d` for a dict. -/
def containsKey (kvs : List (String × Json)) (k : String) : Bool :=
  (lookup? kvs k).isSome

/-- Python `d.get(k)`: the stored value, or `None` when the key is absent. -/
def pyGetD (kvs : List (String × Json)) (k : String) : Json :=
  (lookup? kvs k).getD .null

/-- Python truthiness: `None`, `False`, `0`, `""`, `[]` and `{}` are falsy. -/
def Json.isFalsy : Json → Bool
  | .null => true
  | .bool b => !b
  | .num q => q = 0
  | .str s => s = ""
  | .arr xs => xs.isEmpty
  | .obj kvs => kvs.isEmpty

/-- Python `a or b` (specialised to the uses in the source, where `b` is `{}`). -/
def pyOr (a b : Json) : Json :=
  if a.isFalsy then b else a

/-- Python `x.get(k)` on a value that may not be a dict: raises
`AttributeError` unless `x` is a dict. -/
def pyGetAttr (j : Json) (k : String) : Except PyErr Json :=
  match j with
  | .obj kvs => .ok (pyGetD kvs k)
  | _ => .error .attributeError

mutual

/-- Embedding of `_normalize_items` (api_explorer.py lines 130-145):
`None` becomes no items, a list maps element-wise (dict elements are records,
other elements are wrapped as `{"value": x}`), a dict with an `"item"` key
recurses into that key's value, any other dict is itself one record, and any
other scalar is wrapped as `{"value": x}`.  The dict case's key search and
recursion are fused into `itemNorm` to keep the recursion structural;
`itemNorm_eq_lookup` below restates it in the source's
`if "item" in obj: recurse(obj.get("item"))` form. -/
def normalizeItems : Json → List Record
  | .null => []
  | .arr xs =>
      xs.map (fun x =>
        match x with
        | .obj kvs => kvs
        | v => [("value", v)])
  | .obj kvs =>
      match itemNorm kvs with
      | some r => r
      | none => [kvs]
  | .bool b => [[("value", Json.bool b)]]
  | .num q => [[("value", Json.num q)]]
  | .str s => [[("value", Json.str s)]]

/-- Search a dict's entries for the first `"item"` key and normalize its
value. -/
def itemNorm : List (String × Json) → Option (List Record)
  | [] => none
  | (k, v) :: rest => if k = "item" then some (normalizeItems v) else itemNorm rest

end

theorem itemNorm_eq_lookup (kvs : List (String × Json)) :
    itemNorm kvs = (lookup? kvs "item").map normalizeItems := by
  induction kvs with
  | nil => rfl
  | cons p rest ih =>
    obtain ⟨k, v⟩ := p
    by_cases hk : k = "item"
    · simp [itemNorm, lookup?, hk]
    · simp [itemNorm, lookup?, hk, ih]

/-- One response body as handed to `extract_items`, with the standard-library
parsing outcomes modelled as an oracle: `jsonGood data` is a body that
`is_json_response` classifies as JSON and `json.loads` parses to `data`;
`jsonBad` is a JSON-classified body on which `json.loads` raises;
`xmlGood items` is an XML-classified body on which `parse_xml_items` returns
`items`; `xmlBad` is an XML-classified body on which `ET.fromstring` raises. -/
inductive RawBody where
  | jsonGood (data : Json)
  | jsonBad
  | xmlGood (items : List Record)
  | xmlBad

/-- Embedding of the JSON branch of `extract_items` (lines 150-160):
if the parsed value is a dict containing `"response"`, probe
`(data.get("response") or {}).get("body") or {}` then `.get("items")`
(each `.get` raising `AttributeError` on a truthy non-dict);
else if it is a dict containing `"items"`, take that field;
otherwise take the value itself; finally coerce with `_normalize_items`. -/
def extractItemsJson (data : Json) : Except PyErr (List Record × Json) :=
  match data with
  | .obj kvs =>
      if containsKey kvs "response" then
        match pyGetAttr (pyOr (pyGetD kvs "response") (.obj [])) "body" with
        | .error e => .error e
        | .ok body1 =>
          match pyGetAttr (pyOr body1 (.obj [])) "items" with
          | .error e => .error e
          | .ok itemsObj => .ok (normalizeItems itemsObj, data)
      else if containsKey kvs "items" then
        .ok (normalizeItems (pyGetD kvs "items"), .obj kvs)
      else
        .ok (normalizeItems (.obj kvs), .obj kvs)
  | d => .ok (normalizeItems d, d)

/-- Embedding of `extract_items` (lines 148-162): JSON bodies go through
`extractItemsJson` and return the parsed value as metadata; XML bodies return
`parse_xml_items`'s records with empty metadata; parse failures raise. -/
def extract_items : RawBody → Except PyErr (List Record × Json)
  | .jsonGood data => extractItemsJson data
  | .jsonBad => .error .parseError
  | .xmlGood items => .ok (items, .obj [])
  | .xmlBad => .error .parseError

/-- Numeric value of a list of decimal digit characters. -/
def digitsVal (cs : List Char) : ℕ :=
  cs.foldl (fun a c => 10 * a + (c.toNat - 48)) 0

/-- Python `int(s)` on a string: strips whitespace, then an optional sign
followed by one or more digits; anything else raises (modelled as `none`). -/
def parseInt? (s : String) : Option ℤ :=
  match (s.trim).data with
  | '-' :: cs => if !cs.isEmpty && cs.all Char.isDigit then some (-(digitsVal cs : ℤ)) else none
  | '+' :: cs => if !cs.isEmpty && cs.all Char.isDigit then some (digitsVal cs : ℤ) else none
  | cs => if !cs.isEmpty && cs.all Char.isDigit then some (digitsVal cs : ℤ) else none

/-- Truncation toward zero, the behaviour of Python `int()` on a float. -/
def ratTrunc (q : ℚ) : ℤ :=
  if 0 ≤ q then ⌊q⌋ else ⌈q⌉

/-- Python `int(x)` on a JSON value: numbers truncate toward zero, booleans
become 0/1, strings are parsed, anything else raises (`none`). -/
def pyInt? : Json → Option ℤ
  | .num q => some (ratTrunc q)
  | .bool b => some (if b then 1 else 0)
  | .str s => parseInt? s
  | _ => none

/-- Embedding of `_extract_total_count` (lines 165-171): reads
`(meta.get("response") or {}).get("body") or {}` then `.get("totalCount")`
and converts with `int(...)`, with every exception caught and turned into
`None` (here `none`). -/
def extractTotalCount (meta : Json) : Option ℤ :=
  match meta with
  | .obj kvs =>
      match pyOr (pyGetD kvs "response") (.obj []) with
      | .obj rkvs =>
          match pyOr (pyGetD rkvs "body") (.obj []) with
          | .obj bkvs =>
              match lookup? bkvs "totalCount" with
              | none => none
              | some .null => none
              | some v => pyInt? v
          | _ => none
      | _ => none
  | _ => none

/-- The declared-total stop test of `paginate` (line 199):
`total_count is not None and len(all_items) >= total_count`. -/
def tcStop : Option ℤ → ℕ → Bool
  | none, _ => false
  | some tc, len => tc ≤ (len : ℤ)

/-- The loop body of `paginate` (lines 185-207), instrumented with a count of
issued page requests (the pair's second component; errors also carry the count
at the moment they were raised).  `fetch` abstracts `request_page`; `rem` is
the number of loop iterations `page <= MAX_PAGES` still allows. -/
def pagLoop (fetch : ℕ → Except PyErr (List Record × Json)) (nR : ℕ) :
    ℕ → ℕ → List Record → ℕ → Except (PyErr × ℕ) (List Record × ℕ)
  | 0, _, acc, reqs => .ok (acc, reqs)
  | rem + 1, page, acc, reqs =>
    match fetch page with
    | .error e => .error (e, reqs + 1)
    | .ok (items, meta) =>
      if items.isEmpty then .ok (acc, reqs + 1)
      else
        if tcStop (extractTotalCount meta) (acc ++ items).length then
          .ok (acc ++ items, reqs + 1)
        else if items.length < nR then .ok (acc ++ items, reqs + 1)
        else pagLoop fetch nR rem (page + 1) (acc ++ items) (reqs + 1)

/-- `paginate` with the request-count instrumentation kept:
start at page 1 with an empty accumulator; `nR` is `NUM_OF_ROWS` and
`maxPages` is `MAX_PAGES` (the source reads both from module constants). -/
def paginateT (fetch : ℕ → Except PyErr (List Record × Json))
    (nR maxPages : ℕ) : Except (PyErr × ℕ) (List Record × ℕ) :=
  pagLoop fetch nR maxPages 1 [] 0

/-- Embedding of `paginate` (lines 181-208): the accumulated records, with
exceptions propagating; the request count of `paginateT` is projected away,
matching the source's return value. -/
def paginate (fetch : ℕ → Except PyErr (List Record × Json))
    (nR maxPages : ℕ) : Except PyErr (List Record) :=
  match paginateT fetch nR maxPages with
  | .ok (acc, _) => .ok acc
  | .error (e, _) => .error e

/-- `paginate` driven by raw response bodies: each page's `request_page`
result is `extract_items` of that page's body. -/
def paginateB (bodies : ℕ → RawBody) (nR maxPages : ℕ) :
    Except (PyErr × ℕ) (List Record × ℕ) :=
  paginateT (fun p => extract_items (bodies p)) nR maxPages

/-- The records a fetch outcome contributes (an error contributes nothing). -/
def okItems : Except PyErr (List Record × Json) → List Record
  | .ok (items, _) => items
  | .error _ => []

/-- Whether a fetch outcome is a success. -/
def fetchOk : Except PyErr (List Record × Json) → Bool
  | .ok _ => true
  | .error _ => false

/-- Concatenation, in page order, of the records of `k` consecutive pages
starting at `page`. -/
def pagesConcat (fetch : ℕ → Except PyErr (List Record × Json)) :
    ℕ → ℕ → List Record
  | _, 0 => []
  | page, k + 1 => okItems (fetch page) ++ pagesConcat fetch (page + 1) k

/-- The whitespace characters stripped by Python `str.strip()`. -/
def isSpaceChar (c : Char) : Bool :=
  c = ' ' || c = '\t' || c = '\n' || c = '\r' || c = '\x0b' || c = '\x0c'

/-- Python `s.strip()`: drop leading and trailing whitespace. -/
def pyStrip (s : String) : String :=
  String.mk (((s.data.dropWhile isSpaceChar).reverse.dropWhile isSpaceChar).reverse)

/-- Left-pad a digit string with zeros to width `k`. -/
def leftPad (s : String) (k : ℕ) : String :=
  String.mk (List.replicate (k - s.length) '0') ++ s

/-- Comma-separated join, as in Python container reprs. -/
def joinComma : List String → String
  | [] => ""
  | [s] => s
  | s :: rest => s ++ ", " ++ joinComma rest

/-- Decimal rendering of a rational, modelling Python `str()` on the numbers
that occur in JSON payloads: integers render without a decimal point (JSON
integers load as Python `int`), and finite decimal fractions render digit by
digit with a point.  The `none` fallback of the scale search is unreachable
for JSON literals (their denominators divide a power of ten). -/
def ratDecimalStr (q : ℚ) : String :=
  if q.den = 1 then toString q.num
  else
    match (List.range 40).find? (fun k => (q * (10 : ℚ) ^ k).den = 1) with
    | some k =>
        let n := (q * (10 : ℚ) ^ k).num
        let sign := if n < 0 then "-" else ""
        let a := n.natAbs
        sign ++ toString (a / 10 ^ k) ++ "." ++ leftPad (toString (a % 10 ^ k)) k
    | none => toString q

mutual

/-- Python `repr()` on a JSON-shaped value (strings quoted, containers
rendered recursively).  Escaping inside string reprs is not modelled; no
claim depends on the repr of a string containing quotes. -/
def pyRepr : Json → String
  | .null => "None"
  | .bool b => if b then "True" else "False"
  | .num q => ratDecimalStr q
  | .str s => "'" ++ s ++ "'"
  | .arr xs => "[" ++ joinComma (pyReprList xs) ++ "]"
  | .obj kvs => "\x7b" ++ joinComma (pyReprPairs kvs) ++ "\x7d"

/-- Reprs of the elements of a JSON array. -/
def pyReprList : List Json → List String
  | [] => []
  | x :: xs => pyRepr x :: pyReprList xs

/-- Reprs of the entries of a JSON object. -/
def pyReprPairs : List (String × Json) → List String
  | [] => []
  | (k, v) :: rest => ("'" ++ k ++ "': " ++ pyRepr v) :: pyReprPairs rest

end

/-- Python `str()` on a JSON-shaped value (what `astype(str)` applies
cell-wise): a string is itself, everything else is its repr. -/
def pyStr : Json → String
  | .str s => s
  | j => pyRepr j

/-- Nonempty list of decimal digits. -/
def digitsOnly (cs : List Char) : Bool :=
  !cs.isEmpty && cs.all Char.isDigit

/-- The part of the `is_number` regex after the optional sign:
one or more digits, optionally a point followed by one or more digits. -/
def numBody (cs : List Char) : Bool :=
  let p := cs.span Char.isDigit
  !p.1.isEmpty &&
    (p.2.isEmpty ||
      (match p.2 with
       | '.' :: fs => digitsOnly fs
       | _ => false))

/-- The `is_number` test of `infer_type` (line 218): full match of the regex
for an optional minus sign, digits, and an optional fractional part
(`\d` modelled as the ASCII digits, which is what the data contains). -/
def isNumberString (s : String) : Bool :=
  match s.data with
  | '-' :: cs => numBody cs
  | cs => numBody cs

/-- The integer-only pattern of `infer_type` (line 233): optional minus sign
followed by digits only. -/
def isIntString (s : String) : Bool :=
  match s.data with
  | '-' :: cs => digitsOnly cs
  | cs => digitsOnly cs

/-- The `is_date` test of `infer_type` (lines 220-225): exactly 8 digits,
exactly 6 digits, or the dashed `YYYY-MM-DD` shape. -/
def isDateString (s : String) : Bool :=
  (s.data.length == 8 && digitsOnly s.data) ||
  (s.data.length == 6 && digitsOnly s.data) ||
  (match s.data with
   | [y1, y2, y3, y4, '-', m1, m2, '-', d1, d2] =>
       [y1, y2, y3, y4, m1, m2, d1, d2].all Char.isDigit
   | _ => false)

/-- Parse an unsigned decimal literal (digits, optional point and digits). -/
def parseUnsigned? (cs : List Char) : Option ℚ :=
  let p := cs.span Char.isDigit
  if p.1.isEmpty then none
  else
    match p.2 with
    | [] => some (digitsVal p.1 : ℚ)
    | '.' :: fs =>
        if digitsOnly fs then
          some ((digitsVal p.1 : ℚ) + (digitsVal fs : ℚ) / (10 : ℚ) ^ fs.length)
        else none
    | _ => none

/-- Numeric parse of a string, modelling `pd.to_numeric` on the decimal
literals this data contains (optional sign, digits, optional fraction;
surrounding whitespace tolerated).  Exotic accepted forms such as exponent
notation are not modelled; no claim exercises them. -/
def parseDecimal? (s : String) : Option ℚ :=
  match (pyStrip s).data with
  | '-' :: cs => (parseUnsigned? cs).map (fun q => -q)
  | '+' :: cs => parseUnsigned? cs
  | cs => parseUnsigned? cs

/-- `pd.to_numeric(x, errors="coerce")` cell-wise: numbers pass through,
booleans become 0/1, strings are parsed, anything else coerces to NaN
(`none`) and is then dropped by `.dropna()`. -/
def toNumeric? : Json → Option ℚ
  | .num q => some q
  | .bool b => some (if b then 1 else 0)
  | .str s => parseDecimal? s
  | _ => none

/-- The preprocessing of `infer_type` (lines 212-213): drop nulls, stringify,
strip whitespace, drop the values that became empty. -/
def cleanSeries (ser : List (Option Json)) : List String :=
  ((ser.filterMap id).map (fun j => pyStrip (pyStr j))).filter (fun s => s != "")

/-- Embedding of `infer_type` (lines 211-235).  A pandas `Series` is a list
of cells where `none` is NaN (a field that was absent, or a null value).
Ratios are exact rationals standing for the float means of the 0/1 maps. -/
def infer_type (ser : List (Option Json)) : String :=
  let s := cleanSeries ser
  if s = [] then "unknown"
  else
    if (9 : ℚ) / 10 ≤ (s.countP isDateString : ℚ) / (s.length : ℚ) then "date"
    else if (9 : ℚ) / 10 ≤ (s.countP isNumberString : ℚ) / (s.length : ℚ) then
      if (9 : ℚ) / 10 ≤ (s.countP isIntString : ℚ) / (s.length : ℚ) then "int" else "float"
    else "string"

/-- The 0.9 threshold test on a count-out-of-length ratio, restated over the
naturals (used to evaluate `infer_type` on concrete inputs, since rational
division does not reduce inside the kernel). -/
theorem nine_tenths_le_ratio (c n : ℕ) (hn : n ≠ 0) :
    ((9 : ℚ) / 10 ≤ (c : ℚ) / (n : ℚ)) ↔ 9 * n ≤ 10 * c := by
  have hn' : (0 : ℚ) < (n : ℚ) := by exact_mod_cast Nat.pos_of_ne_zero hn
  rw [div_le_div_iff₀ (by norm_num) hn']
  rw [show (c : ℚ) * 10 = 10 * c by ring]
  exact_mod_cast Iff.rfl

/-- `infer_type` with the ratio thresholds restated over the naturals. -/
def infer_typeN (ser : List (Option Json)) : String :=
  let s := cleanSeries ser
  if s = [] then "unknown"
  else
    if 9 * s.length ≤ 10 * s.countP isDateString then "date"
    else if 9 * s.length ≤ 10 * s.countP isNumberString then
      if 9 * s.length ≤ 10 * s.countP isIntString then "int" else "float"
    else "string"

theorem infer_type_eq_nat (ser : List (Option Json)) :
    infer_type ser = infer_typeN ser := by
  unfold infer_type infer_typeN
  by_cases hs : cleanSeries ser = []
  · simp [hs]
  · have hlen : (cleanSeries ser).length ≠ 0 := (List.length_pos.mpr hs).ne'
    simp only [hs, if_false, nine_tenths_le_ratio _ _ hlen]

/-- Round to the nearest integer, ties to even: the rounding mode of Python
`round()` (modelled on exact rationals rather than binary doubles). -/
def roundHalfEven (q : ℚ) : ℤ :=
  if q - ⌊q⌋ < 1 / 2 then ⌊q⌋
  else if (1 : ℚ) / 2 < q - ⌊q⌋ then ⌊q⌋ + 1
  else if ⌊q⌋ % 2 = 0 then ⌊q⌋ else ⌊q⌋ + 1

/-- Python `round(x, 4)`. -/
def round4 (q : ℚ) : ℚ :=
  (roundHalfEven (q * 10000) : ℚ) / 10000

/-- One `min`/`max` cell of the summary: a Python float for the numeric
branch, a string for the date branch, an int (a length) for the string
branch. -/
inductive MMVal where
  | flt (q : ℚ)
  | str (s : String)
  | int (n : ℤ)
deriving DecidableEq

/-- One row of the summary frame built by `summarize_dataframe`. -/
structure ColProfile where
  column : String
  inferred_type : String
  missing_rate : ℚ
  nunique : ℕ
  minv : Option MMVal
  maxv : Option MMVal
deriving DecidableEq

/-- A pandas DataFrame as the script uses one: an ordered list of column
labels and the records the rows were built from (a missing field reads as
NaN). -/
structure DFrame where
  cols : List String
  rows : List Record

/-- Reading one cell of a record as pandas stores it: an absent field or a
stored `None` is NaN (`none`). -/
def cellOf (r : Record) (c : String) : Option Json :=
  match lookup? r c with
  | none => none
  | some .null => none
  | some v => some v

/-- The pandas `Series` of column `c`. -/
def colSeries (df : DFrame) (c : String) : List (Option Json) :=
  df.rows.map (fun r => cellOf r c)

/-- Minimum of a list of rationals (`Series.min()`); default unused. -/
def qListMin : List ℚ → ℚ
  | [] => 0
  | x :: xs => xs.foldl min x

/-- Maximum of a list of rationals (`Series.max()`); default unused. -/
def qListMax : List ℚ → ℚ
  | [] => 0
  | x :: xs => xs.foldl max x

/-- Lexicographic minimum of a list of strings; default unused. -/
def sListMin : List String → String
  | [] => ""
  | x :: xs => xs.foldl min x

/-- Lexicographic maximum of a list of strings; default unused. -/
def sListMax : List String → String
  | [] => ""
  | x :: xs => xs.foldl max x

/-- Minimum of a list of naturals (`Series.min()` on lengths). -/
def natListMin : List ℕ → ℕ
  | [] => 0
  | x :: xs => xs.foldl min x

/-- Maximum of a list of naturals (`Series.max()` on lengths). -/
def natListMax : List ℕ → ℕ
  | [] => 0
  | x :: xs => xs.foldl max x

/-- The `min`/`max` branch of `summarize_dataframe` (lines 249-263):
numeric extrema of the `to_numeric`-coercible values when the inferred type
is int or float, lexicographic extrema of the stripped non-empty stringified
values when it is date, and string-length extrema otherwise. -/
def minMaxOf (inferred : String) (nonnull : List Json) : Option MMVal × Option MMVal :=
  if inferred = "int" ∨ inferred = "float" then
    let nums := nonnull.filterMap toNumeric?
    if nums.isEmpty then (none, none)
    else (some (.flt (qListMin nums)), some (.flt (qListMax nums)))
  else if inferred = "date" then
    let vals := (nonnull.map (fun j => pyStrip (pyStr j))).filter (fun s => s != "")
    if vals.isEmpty then (none, none)
    else (some (.str (sListMin vals)), some (.str (sListMax vals)))
  else
    let vals := nonnull.map pyStr
    if vals.isEmpty then (none, none)
    else
      (some (.int (natListMin (vals.map String.length) : ℤ)),
       some (.int (natListMax (vals.map String.length) : ℤ)))

/-- The summary row `summarize_dataframe` (lines 241-274) computes for one
column: the inferred type, `missing_rate = round(1.0 - (len(nonnull)/len(df)
if len(df) else 0.0), 4)`, `nunique` over the stringified non-null values,
and the branched `min`/`max` of `minMaxOf`. -/
def colProfile (df : DFrame) (c : String) : ColProfile :=
  let ser := colSeries df c
  let nonnull := ser.filterMap id
  let inferred := infer_type ser
  let mm : Option MMVal × Option MMVal := minMaxOf inferred nonnull
  { column := c
    inferred_type := inferred
    missing_rate :=
      round4 (1 - (if df.rows.length ≠ 0 then (nonnull.length : ℚ) / (df.rows.length : ℚ) else 0))
    nunique := if nonnull.length ≠ 0 then ((nonnull.map pyStr).dedup).length else 0
    minv := mm.1
    maxv := mm.2 }

/-- Insert a summary row into a name-sorted list of rows. -/
def insertProf (p : ColProfile) : List ColProfile → List ColProfile
  | [] => [p]
  | q :: rest => if p.column ≤ q.column then p :: q :: rest else q :: insertProf p rest

/-- Sort summary rows by column name ascending (`sort_values("column")`;
the script's column names are distinct, so the sort order is determined). -/
def sortProfs (ps : List ColProfile) : List ColProfile :=
  ps.foldr insertProf []

/-- Embedding of `summarize_dataframe` (lines 238-276).  When the frame has
no columns the row list is empty and
`pd.DataFrame([]).sort_values("column")` raises `KeyError` on the missing
label, which the source does not catch. -/
def summarize_dataframe (df : DFrame) : Except PyErr (List ColProfile) :=
  let rows := df.cols.map (colProfile df)
  if rows.isEmpty then .error .keyError
  else .ok (sortProfs rows)

/-- Column labels of `pd.DataFrame(records)`: union of the field names in
first-seen order. -/
def dfCols (rs : List Record) : List String :=
  rs.foldl (fun acc r => r.foldl (fun a kv => if kv.1 ∈ a then a else a ++ [kv.1]) acc) []

/-- `pd.DataFrame(records)`: the frame the pipeline hands to
`summarize_dataframe`. -/
def mkDF (rs : List Record) : DFrame :=
  ⟨dfCols rs, rs⟩

/-- Whether a JSON value is an object (a Python dict). -/
def Json.isObj : Json → Bool
  | .obj _ => true
  | _ => false

/-- The precondition under which the chained `.get` calls of the JSON branch
of `extract_items` cannot raise: the `"response"` value is a dict (in which
case its `"body"` value must in turn be a dict or falsy) or falsy. -/
def respValSafe : Json → Bool
  | .obj rkvs =>
      (match pyGetD rkvs "body" with
       | .obj _ => true
       | b => b.isFalsy)
  | v => v.isFalsy

/-- A value that is a dict or falsy turns into a dict under `x or {}`. -/
theorem pyOr_obj_of_safe {b : Json} (h : b.isObj = true ∨ b.isFalsy = true) :
    ∃ kvs, pyOr b (.obj []) = .obj kvs ∧ (b = .obj kvs ∨ kvs = []) := by
  by_cases hf : b.isFalsy
  · exact ⟨[], by simp [pyOr, hf], Or.inr rfl⟩
  · cases b with
    | obj kvs => exact ⟨kvs, by simp [pyOr, hf], Or.inl rfl⟩
    | null => simp [Json.isFalsy] at hf
    | bool b =>
      rcases h with h | h
      · simp [Json.isObj] at h
      · exact absurd h hf
    | num q =>
      rcases h with h | h
      · simp [Json.isObj] at h
      · exact absurd h hf
    | str s =>
      rcases h with h | h
      · simp [Json.isObj] at h
      · exact absurd h hf
    | arr xs =>
      rcases h with h | h
      · simp [Json.isObj] at h
      · exact absurd h hf

/-- One continuing iteration of the pagination loop. -/
theorem pagLoop_step_cont
    {fetch : ℕ → Except PyErr (List Record × Json)} {nR r page reqs : ℕ}
    {acc items : List Record} {meta : Json}
    (hf : fetch page = .ok (items, meta))
    (h1 : items.isEmpty = false)
    (h2 : tcStop (extractTotalCount meta) (acc ++ items).length = false)
    (h3 : ¬ items.length < nR) :
    pagLoop fetch nR (r + 1) page acc reqs =
      pagLoop fetch nR r (page + 1) (acc ++ items) (reqs + 1) := by
  rw [pagLoop, hf]
  dsimp only
  rw [if_neg (by simp [h1]), if_neg (by simpa using h2), if_neg h3]

/-- The declared-total stop of the pagination loop. -/
theorem pagLoop_stop_total
    {fetch : ℕ → Except PyErr (List Record × Json)} {nR r page reqs : ℕ}
    {acc items : List Record} {meta : Json} {tc : ℤ}
    (hf : fetch page = .ok (items, meta))
    (h1 : items.isEmpty = false)
    (htc : extractTotalCount meta = some tc)
    (hge : tc ≤ ((acc ++ items).length : ℤ)) :
    pagLoop fetch nR (r + 1) page acc reqs = .ok (acc ++ items, reqs + 1) := by
  rw [pagLoop, hf]
  have h2 : tcStop (extractTotalCount meta) (acc ++ items).length = true := by
    rw [htc]
    simpa [tcStop] using hge
  dsimp only
  rw [if_neg (by simp [h1]), if_pos (by simpa using h2)]

/-- The empty-page stop of the pagination loop. -/
theorem pagLoop_stop_empty
    {fetch : ℕ → Except PyErr (List Record × Json)} {nR r page reqs : ℕ}
    {acc : List Record} {meta : Json}
    (hf : fetch page = .ok ([], meta)) :
    pagLoop fetch nR (r + 1) page acc reqs = .ok (acc, reqs + 1) := by
  rw [pagLoop, hf]
  simp

/-- An exception in a page fetch propagates out of the pagination loop. -/
theorem pagLoop_step_err
    {fetch : ℕ → Except PyErr (List Record × Json)} {nR r page reqs : ℕ}
    {acc : List Record} {e : PyErr}
    (hf : fetch page = .error e) :
    pagLoop fetch nR (r + 1) page acc reqs = .error (e, reqs + 1) := by
  rw [pagLoop, hf]

/-- Master invariant of the pagination loop on success: some `k ≤ rem` pages
were fetched, each successfully, and the accumulator grew by exactly their
records, concatenated in page order. -/
theorem pagLoop_ok_spec (fetch : ℕ → Except PyErr (List Record × Json)) (nR : ℕ) :
    ∀ (rem page reqs : ℕ) (acc acc' : List Record) (reqs' : ℕ),
      pagLoop fetch nR rem page acc reqs = .ok (acc', reqs') →
      ∃ k, reqs' = reqs + k ∧ k ≤ rem ∧
        (∀ i, i < k → fetchOk (fetch (page + i)) = true) ∧
        acc' = acc ++ pagesConcat fetch page k := by
  intro rem
  induction rem with
  | zero =>
    intro page reqs acc acc' reqs' h
    rw [pagLoop] at h
    obtain ⟨h1, h2⟩ : acc = acc' ∧ reqs = reqs' := by
      simpa using h
    exact ⟨0, by omega, by omega, by omega, by simp [pagesConcat, h1]⟩
  | succ r ih =>
    intro page reqs acc acc' reqs' h
    rw [pagLoop] at h
    cases hf : fetch page with
    | error e => rw [hf] at h; simp at h
    | ok pr =>
      obtain ⟨items, meta⟩ := pr
      rw [hf] at h
      simp only at h
      by_cases hemp : items.isEmpty
      · rw [if_pos hemp] at h
        obtain ⟨h1, h2⟩ : acc = acc' ∧ reqs + 1 = reqs' := by simpa using h
        refine ⟨1, by omega, by omega, ?_, ?_⟩
        · intro i hi
          have : i = 0 := by omega
          subst this
          simp [fetchOk, hf]
        · have : items = [] := List.isEmpty_iff.mp hemp
          simp [pagesConcat, okItems, hf, this, h1]
      · rw [if_neg hemp] at h
        by_cases htc : tcStop (extractTotalCount meta) (acc ++ items).length
        · rw [if_pos htc] at h
          obtain ⟨h1, h2⟩ : acc ++ items = acc' ∧ reqs + 1 = reqs' := by simpa using h
          refine ⟨1, by omega, by omega, ?_, ?_⟩
          · intro i hi
            have : i = 0 := by omega
            subst this
            simp [fetchOk, hf]
          · simp [pagesConcat, okItems, hf, h1]
        · rw [if_neg htc] at h
          by_cases hsh : items.length < nR
          · rw [if_pos hsh] at h
            obtain ⟨h1, h2⟩ : acc ++ items = acc' ∧ reqs + 1 = reqs' := by simpa using h
            refine ⟨1, by omega, by omega, ?_, ?_⟩
            · intro i hi
              have : i = 0 := by omega
              subst this
              simp [fetchOk, hf]
            · simp [pagesConcat, okItems, hf, h1]
          · rw [if_neg hsh] at h
            obtain ⟨k, hk1, hk2, hk3, hk4⟩ := ih (page + 1) (reqs + 1) (acc ++ items) acc' reqs' h
            refine ⟨k + 1, by omega, by omega, ?_, ?_⟩
            · intro i hi
              cases i with
              | zero => simp [fetchOk, hf]
              | succ j =>
                have hj : j < k := by omega
                have := hk3 j hj
                have harith : page + (j + 1) = page + 1 + j := by omega
                rw [harith]
                exact this
            · rw [hk4]
              simp [pagesConcat, okItems, hf, List.append_assoc]

/-- Master invariant of the pagination loop on failure: the failing request
is within the remaining budget. -/
theorem pagLoop_err_spec (fetch : ℕ → Except PyErr (List Record × Json)) (nR : ℕ) :
    ∀ (rem page reqs : ℕ) (acc : List Record) (e : PyErr) (reqs' : ℕ),
      pagLoop fetch nR rem page acc reqs = .error (e, reqs') →
      ∃ k, reqs' = reqs + k ∧ 1 ≤ k ∧ k ≤ rem := by
  intro rem
  induction rem with
  | zero =>
    intro page reqs acc e reqs' h
    rw [pagLoop] at h
    simp at h
  | succ r ih =>
    intro page reqs acc e reqs' h
    rw [pagLoop] at h
    cases hf : fetch page with
    | error e' =>
      rw [hf] at h
      obtain ⟨h1, h2⟩ : e' = e ∧ reqs + 1 = reqs' := by simpa using h
      exact ⟨1, by omega, by omega, by omega⟩
    | ok pr =>
      obtain ⟨items, meta⟩ := pr
      rw [hf] at h
      simp only at h
      by_cases hemp : items.isEmpty
      · rw [if_pos hemp] at h; simp at h
      · rw [if_neg hemp] at h
        by_cases htc : tcStop (extractTotalCount meta) (acc ++ items).length
        · rw [if_pos htc] at h; simp at h
        · rw [if_neg htc] at h
          by_cases hsh : items.length < nR
          · rw [if_pos hsh] at h; simp at h
          · rw [if_neg hsh] at h
            obtain ⟨k, hk1, hk2, hk3⟩ := ih (page + 1) (reqs + 1) (acc ++ items) e reqs' h
            exact ⟨k + 1, by omega, by omega, by omega⟩

theorem mem_insertProf {p q : ColProfile} {l : List ColProfile} :
    p ∈ insertProf q l ↔ p = q ∨ p ∈ l := by
  induction l with
  | nil => simp [insertProf]
  | cons x rest ih =>
    by_cases h : q.column ≤ x.column
    · simp [insertProf, h]
    · simp [insertProf, h, ih]
      tauto

theorem mem_sortProfs {p : ColProfile} {l : List ColProfile} :
    p ∈ sortProfs l ↔ p ∈ l := by
  induction l with
  | nil => simp [sortProfs]
  | cons x rest ih =>
    simp only [sortProfs, List.foldr_cons] at *
    rw [mem_insertProf]
    simp [ih]

/-- Every row of a summary produced by `summarize_dataframe` is the profile
of one of the frame's columns. -/
theorem summarize_mem {df : DFrame} {ps : List ColProfile} {p : ColProfile}
    (h : summarize_dataframe df = .ok ps) (hp : p ∈ ps) :
    p.column ∈ df.cols ∧ p = colProfile df p.column := by
  unfold summarize_dataframe at h
  by_cases he : (df.cols.map (colProfile df)).isEmpty
  · simp [he] at h
  · simp only [he, if_neg, Bool.false_eq_true, not_false_iff, if_false] at h
    obtain rfl : sortProfs (df.cols.map (colProfile df)) = ps := by simpa using h
    rw [mem_sortProfs] at hp
    obtain ⟨c, hc, hpc⟩ := List.mem_map.mp hp
    have hcc : (colProfile df c).column = c := rfl
    have hcol : p.column = c := by rw [← hpc, hcc]
    rw [hcol]
    exact ⟨hc, by rw [← hpc]⟩

/-- A generic one-field record used by the concrete endpoint fixtures. -/
def rowV : Record := [("value", Json.num 1)]

/-- A full page of 100 records. -/
def page100 : List Record := List.replicate 100 rowV

/-- A final short page of 50 records. -/
def page50 : List Record := List.replicate 50 rowV

/-- Response metadata declaring `totalCount = 250`. -/
def meta250 : Json :=
  .obj [("response", .obj [("body", .obj [("totalCount", .num 250)])])]

/-- Response metadata declaring `totalCount = 50`. -/
def meta50 : Json :=
  .obj [("response", .obj [("body", .obj [("totalCount", .num 50)])])]

/-- Response metadata declaring no total count. -/
def metaNone : Json := .obj []

/-- The endpoint of the 250-record scenario: pages of 100, 100 and 50 records
under a declared total of 250 (and, immaterially, full pages afterwards). -/
def fetch250 : ℕ → Except PyErr (List Record × Json)
  | 1 => .ok (page100, meta250)
  | 2 => .ok (page100, meta250)
  | 3 => .ok (page50, meta250)
  | _ => .ok (page100, meta250)

/-- An endpoint that always returns a full page and no total count. -/
def fetchFull : ℕ → Except PyErr (List Record × Json) :=
  fun _ => .ok (page100, metaNone)

/-- An endpoint whose first page already exceeds its declared total of 50. -/
def fetchOver : ℕ → Except PyErr (List Record × Json) :=
  fun _ => .ok (page100, meta50)

/-- An endpoint whose every response is well-formed JSON yielding no items. -/
def bodiesNoItems : ℕ → RawBody :=
  fun _ => .jsonGood (.obj [("response", .obj [])])

/-- Claim C1: with pageSize 100 and maxPages 50 against an endpoint declaring
totalCount 250 and serving pages of 100, 100 and 50 records, `paginate`
issues exactly 3 page requests and returns exactly 250 records, never
issuing a 4th request (the result does not depend on the endpoint's
behaviour beyond page 3); and in general, whenever the response metadata
declares a total count and the accumulated record count reaches it, the loop
stops right there. -/
theorem paginate_declared_total_stop :
    (∀ fetch : ℕ → Except PyErr (List Record × Json),
        fetch 1 = .ok (page100, meta250) →
        fetch 2 = .ok (page100, meta250) →
        fetch 3 = .ok (page50, meta250) →
        paginateT fetch 100 50 = .ok (page100 ++ page100 ++ page50, 3) ∧
        paginate fetch 100 50 = .ok (page100 ++ page100 ++ page50) ∧
        (page100 ++ page100 ++ page50).length = 250) ∧
    (∀ (fetch : ℕ → Except PyErr (List Record × Json)) (nR r page reqs : ℕ)
        (acc items : List Record) (meta : Json) (tc : ℤ),
        fetch page = .ok (items, meta) →
        items.isEmpty = false →
        extractTotalCount meta = some tc →
        tc ≤ ((acc ++ items).length : ℤ) →
        pagLoop fetch nR (r + 1) page acc reqs = .ok (acc ++ items, reqs + 1)) := by
  constructor
  · intro fetch h1 h2 h3
    have s1 : pagLoop fetch 100 50 1 [] 0 = pagLoop fetch 100 49 2 ([] ++ page100) 1 :=
      @pagLoop_step_cont fetch 100 49 1 0 [] page100 meta250 h1 (by decide) (by decide)
        (by decide)
    have s2 : pagLoop fetch 100 49 2 ([] ++ page100) 1 =
        pagLoop fetch 100 48 3 (([] ++ page100) ++ page100) 2 :=
      @pagLoop_step_cont fetch 100 48 2 1 ([] ++ page100) page100 meta250 h2 (by decide)
        (by decide) (by decide)
    have s3 : pagLoop fetch 100 48 3 (([] ++ page100) ++ page100) 2 =
        .ok ((([] ++ page100) ++ page100) ++ page50, 2 + 1) :=
      @pagLoop_stop_total fetch 100 47 3 2 (([] ++ page100) ++ page100) page50 meta250 250
        h3 (by decide) (by decide) (by decide)
    have hT : paginateT fetch 100 50 = .ok (page100 ++ page100 ++ page50, 3) := by
      show pagLoop fetch 100 50 1 [] 0 = _
      rw [s1, s2, s3]
      simp
    refine ⟨hT, ?_, by decide⟩
    unfold paginate
    rw [hT]
  · intro fetch nR r page reqs acc items meta tc hf h1 htc hge
    exact pagLoop_stop_total hf h1 htc hge

theorem paginate_declared_total_stop_witness :
    paginateT fetch250 100 50 = .ok (page100 ++ page100 ++ page50, 3) ∧
    pagLoop fetch250 100 1 3 (page100 ++ page100) 2 =
      .ok ((page100 ++ page100) ++ page50, 2 + 1) := by
  constructor
  · exact (paginate_declared_total_stop.1 fetch250 rfl rfl rfl).1
  · exact paginate_declared_total_stop.2 fetch250 100 0 3 2 (page100 ++ page100) page50
      meta250 250 rfl (by decide) (by decide) (by decide)

/-- Claim C8 (amended from nothing — confirmed): for every endpoint
behaviour, `paginate` issues at most `maxPages` requests (both on success and
on a propagated exception; termination itself holds by construction, the loop
being structurally bounded by `maxPages`); and against an endpoint that
always returns a full page with no total count, `paginate` with maxPages 5
terminates after exactly 5 requests. -/
theorem paginate_hard_cap :
    (∀ (fetch : ℕ → Except PyErr (List Record × Json)) (nR maxPages : ℕ)
        (acc : List Record) (reqs : ℕ),
        paginateT fetch nR maxPages = .ok (acc, reqs) → reqs ≤ maxPages) ∧
    (∀ (fetch : ℕ → Except PyErr (List Record × Json)) (nR maxPages : ℕ)
        (e : PyErr) (reqs : ℕ),
        paginateT fetch nR maxPages = .error (e, reqs) → reqs ≤ maxPages) ∧
    paginateT fetchFull 100 5 = .ok (List.replicate 500 rowV, 5) ∧
    paginate fetchFull 100 5 = .ok (List.replicate 500 rowV) := by
  refine ⟨?_, ?_, ?_, ?_⟩
  · intro fetch nR maxPages acc reqs h
    obtain ⟨k, hk1, hk2, -, -⟩ := pagLoop_ok_spec fetch nR maxPages 1 0 [] acc reqs h
    omega
  · intro fetch nR maxPages e reqs h
    obtain ⟨k, hk1, hk2, hk3⟩ := pagLoop_err_spec fetch nR maxPages 1 0 [] e reqs h
    omega
  · rfl
  · rfl

theorem paginate_hard_cap_witness : (5 : ℕ) ≤ 5 :=
  paginate_hard_cap.1 fetchFull 100 5 (List.replicate 500 rowV) 5 rfl

/-- Claim C9: the dataset `paginate` returns is exactly the concatenation, in
page order, of the records of every fetched page (each of which was fetched
successfully); and when declared-total termination fires the final page is
appended in full even if the result then exceeds the declared total, as the
concrete endpoint with a declared total of 50 and a first page of 100
records shows. -/
theorem paginate_concat_pages :
    (∀ (fetch : ℕ → Except PyErr (List Record × Json)) (nR maxPages : ℕ)
        (acc : List Record) (reqs : ℕ),
        paginateT fetch nR maxPages = .ok (acc, reqs) →
        (∀ i, i < reqs → fetchOk (fetch (1 + i)) = true) ∧
        acc = pagesConcat fetch 1 reqs) ∧
    (paginateT fetchOver 100 50 = .ok (page100, 1) ∧
     extractTotalCount meta50 = some 50 ∧ (50 : ℤ) < (page100.length : ℤ)) := by
  constructor
  · intro fetch nR maxPages acc reqs h
    obtain ⟨k, hk1, hk2, hk3, hk4⟩ := pagLoop_ok_spec fetch nR maxPages 1 0 [] acc reqs h
    have hk : k = reqs := by omega
    subst hk
    constructor
    · intro i hi
      exact hk3 i hi
    · simpa using hk4
  · exact ⟨rfl, by decide, by decide⟩

theorem paginate_concat_pages_witness :
    (∀ i, i < 1 → fetchOk (fetchOver (1 + i)) = true) ∧
      page100 = pagesConcat fetchOver 1 1 :=
  paginate_concat_pages.1 fetchOver 100 50 page100 1 rfl

/-- Claim C3, counterexample to the claim as stated: the well-formed JSON
body whose parsed value is the mapping with `response` bound to an empty
mapping yields no coercible items, yet `extract_items` returns zero records
without any error and `paginate` treats it as the legitimate empty-page
termination, returning an empty dataset after one request. -/
theorem no_items_json_silently_empty :
    extract_items (.jsonGood (.obj [("response", .obj [])])) =
      .ok ([], .obj [("response", .obj [])]) ∧
    paginateB bodiesNoItems 100 50 = .ok ([], 1) ∧
    paginate (fun p => extract_items (bodiesNoItems p)) 100 50 = .ok [] := by
  exact ⟨rfl, rfl, rfl⟩

/-- Claim C3 as amended: a body on which JSON or XML parsing fails raises a
parse error (a `json.JSONDecodeError` or `ET.ParseError`; the source defines
no `ParseError` class of its own), and such an exception propagates out of
the pagination loop, aborting that endpoint's collection; but a well-formed
JSON value yielding no coercible items is silently normalized to zero
records, which `paginate` treats as the empty-page termination rather than
an error. -/
theorem parse_error_propagation_amended :
    extract_items .jsonBad = .error .parseError ∧
    extract_items .xmlBad = .error .parseError ∧
    (∀ (fetch : ℕ → Except PyErr (List Record × Json)) (nR r page reqs : ℕ)
        (acc : List Record) (e : PyErr),
        fetch page = .error e →
        pagLoop fetch nR (r + 1) page acc reqs = .error (e, reqs + 1)) ∧
    (∀ (fetch : ℕ → Except PyErr (List Record × Json)) (nR m : ℕ) (e : PyErr),
        fetch 1 = .error e → paginate fetch nR (m + 1) = .error e) ∧
    (∀ (bodies : ℕ → RawBody) (nR m : ℕ) (d : Json),
        bodies 1 = .jsonGood d → extractItemsJson d = .ok ([], d) →
        paginateB bodies nR (m + 1) = .ok ([], 1)) := by
  refine ⟨rfl, rfl, ?_, ?_, ?_⟩
  · intro fetch nR r page reqs acc e hf
    exact pagLoop_step_err hf
  · intro fetch nR m e hf
    unfold paginate paginateT
    rw [pagLoop_step_err hf]
  · intro bodies nR m d hb hd
    unfold paginateB paginateT
    have hf : (fun p => extract_items (bodies p)) 1 = .ok (([] : List Record), d) := by
      simp only [hb, extract_items, hd]
    rw [pagLoop_stop_empty hf]

theorem parse_error_propagation_amended_witness :
    paginate (fun _ => .error .parseError) 100 50 = .error .parseError ∧
    paginateB bodiesNoItems 100 (49 + 1) = .ok ([], 1) := by
  constructor
  · exact parse_error_propagation_amended.2.2.2.1 (fun _ => .error .parseError) 100 49
      .parseError rfl
  · exact parse_error_propagation_amended.2.2.2.2 bodiesNoItems 100 49
      (.obj [("response", .obj [])]) rfl rfl

/-- Claim C2, counterexample to the claim as stated: the parsed mapping
`(response := empty mapping, items := [1])` yields no items via the
`response.body.items` path and has a top-level `items` field, yet
`extract_items` returns zero records instead of the coercion of that field
(which would be one record), because the branch is chosen by the mere
presence of the `response` key. -/
theorem extract_items_items_key_shadowed :
    extract_items (.jsonGood (.obj [("response", .obj []), ("items", .arr [.num 1])])) =
      .ok ([], .obj [("response", .obj []), ("items", .arr [.num 1])]) ∧
    normalizeItems (.arr [.num 1]) = [[("value", .num 1)]] ∧
    ([] : List Record) ≠ [[("value", .num 1)]] := by
  refine ⟨rfl, rfl, ?_⟩
  simp

/-- Claim C2 as amended: the probe order is decided by key presence, not by
whether a probe yields items.  A parsed mapping containing a `response` key
always resolves the collection through the `response.body.items` path (shown
here on the exception-free shapes: the path's value when `response` and
`body` hold mappings, which may be null and yield zero records); only a
mapping without `response` but with a top-level `items` field uses that
field; a mapping with neither key, or any non-mapping value, is coerced
whole. -/
theorem extract_items_probe_order_amended :
    (∀ kvs : List (String × Json), containsKey kvs "response" = false →
        containsKey kvs "items" = true →
        extractItemsJson (.obj kvs) = .ok (normalizeItems (pyGetD kvs "items"), .obj kvs)) ∧
    (∀ kvs : List (String × Json), containsKey kvs "response" = false →
        containsKey kvs "items" = false →
        extractItemsJson (.obj kvs) = .ok (normalizeItems (.obj kvs), .obj kvs)) ∧
    (∀ d : Json, d.isObj = false → extractItemsJson d = .ok (normalizeItems d, d)) ∧
    (∀ (kvs rkvs bkvs : List (String × Json)),
        lookup? kvs "response" = some (.obj rkvs) →
        lookup? rkvs "body" = some (.obj bkvs) →
        extractItemsJson (.obj kvs) =
          .ok (normalizeItems (pyGetD bkvs "items"), .obj kvs)) := by
  refine ⟨?_, ?_, ?_, ?_⟩
  · intro kvs hr hi
    unfold extractItemsJson
    dsimp only
    rw [if_neg (by simp [hr]), if_pos (by simp [hi])]
  · intro kvs hr hi
    unfold extractItemsJson
    dsimp only
    rw [if_neg (by simp [hr]), if_neg (by simp [hi])]
  · intro d hd
    cases d with
    | obj kvs => simp [Json.isObj] at hd
    | null => rfl
    | bool b => rfl
    | num q => rfl
    | str s => rfl
    | arr xs => rfl
  · intro kvs rkvs bkvs hresp hbody
    have hck : containsKey kvs "response" = true := by
      simp [containsKey, hresp]
    have hrv : pyGetD kvs "response" = .obj rkvs := by
      simp [pyGetD, hresp]
    unfold extractItemsJson
    dsimp only
    rw [if_pos (by simp [hck]), hrv]
    cases rkvs with
    | nil => simp [lookup?] at hbody
    | cons p prest =>
      have hor : pyOr (.obj (p :: prest)) (.obj []) = .obj (p :: prest) := by
        simp [pyOr, Json.isFalsy]
      rw [hor]
      have hbv : pyGetAttr (.obj (p :: prest)) "body" = .ok (.obj bkvs) := by
        simp [pyGetAttr, pyGetD, hbody]
      rw [hbv]
      dsimp only
      cases bkvs with
      | nil =>
        simp [pyOr, Json.isFalsy, pyGetAttr, pyGetD, lookup?]
      | cons q qrest =>
        have hor2 : pyOr (.obj (q :: qrest)) (.obj []) = .obj (q :: qrest) := by
          simp [pyOr, Json.isFalsy]
        rw [hor2]
        simp [pyGetAttr]

theorem extract_items_probe_order_amended_witness :
    extractItemsJson (.obj [("items", .arr [.num 1])]) =
      .ok (normalizeItems (pyGetD [("items", .arr [.num 1])] "items"),
        .obj [("items", .arr [.num 1])]) ∧
    extractItemsJson
        (.obj [("response", .obj [("body", .obj [("items", .arr [.num 2])])])]) =
      .ok (normalizeItems (pyGetD [("items", .arr [.num 2])] "items"),
        .obj [("response", .obj [("body", .obj [("items", .arr [.num 2])])])]) := by
  constructor
  · exact extract_items_probe_order_amended.1 [("items", .arr [.num 1])] rfl rfl
  · exact extract_items_probe_order_amended.2.2.2
      [("response", .obj [("body", .obj [("items", .arr [.num 2])])])]
      [("body", .obj [("items", .arr [.num 2])])] [("items", .arr [.num 2])] rfl rfl

/-- Claim C10, counterexample to the claim as stated: the stated precondition
(the `response` value is a mapping or falsy) does not make the attribute
lookups safe — with `response` bound to the mapping `(body := "x")` the
precondition holds, yet the second chained `.get` is applied to the truthy
non-mapping string `"x"` and raises `AttributeError`. -/
theorem extract_items_body_lookup_unsafe :
    extractItemsJson (.obj [("response", .obj [("body", .str "x")])]) =
      .error .attributeError := rfl

/-- Claim C10 as amended: `extract_items` is exception-free when the
`response` value is falsy or is a mapping whose `body` value is in turn a
mapping or falsy; and for some well-formed JSON input whose `response` value
is a truthy non-mapping — here the string `"error"` — it raises
`AttributeError` rather than returning records or a parse error. -/
theorem extract_items_attr_safety_amended :
    (∀ (kvs : List (String × Json)) (v : Json),
        lookup? kvs "response" = some v → respValSafe v = true →
        ∃ r : List Record × Json, extractItemsJson (.obj kvs) = .ok r) ∧
    extractItemsJson (.obj [("response", .str "error")]) = .error .attributeError := by
  constructor
  · intro kvs v hresp hsafe
    have hck : containsKey kvs "response" = true := by
      simp [containsKey, hresp]
    have hrv : pyGetD kvs "response" = v := by
      simp [pyGetD, hresp]
    have hv : v.isObj = true ∨ v.isFalsy = true := by
      cases v with
      | obj rkvs => exact Or.inl rfl
      | null => exact Or.inr rfl
      | bool b => exact Or.inr (by simpa [respValSafe] using hsafe)
      | num q => exact Or.inr (by simpa [respValSafe] using hsafe)
      | str s => exact Or.inr (by simpa [respValSafe] using hsafe)
      | arr xs => exact Or.inr (by simpa [respValSafe] using hsafe)
    obtain ⟨kvs1, hor1, hcase⟩ := pyOr_obj_of_safe hv
    have hb1 : (pyGetD kvs1 "body").isObj = true ∨ (pyGetD kvs1 "body").isFalsy = true := by
      rcases hcase with hcase | hcase
      · rw [hcase] at hsafe
        unfold respValSafe at hsafe
        dsimp only at hsafe
        cases hbv : pyGetD kvs1 "body" with
        | obj bkvs => exact Or.inl rfl
        | null => exact Or.inr rfl
        | bool b => rw [hbv] at hsafe; exact Or.inr (by simpa using hsafe)
        | num q => rw [hbv] at hsafe; exact Or.inr (by simpa using hsafe)
        | str s => rw [hbv] at hsafe; exact Or.inr (by simpa using hsafe)
        | arr xs => rw [hbv] at hsafe; exact Or.inr (by simpa using hsafe)
      · subst hcase
        exact Or.inr rfl
    obtain ⟨kvs2, hor2, -⟩ := pyOr_obj_of_safe hb1
    unfold extractItemsJson
    dsimp only
    rw [if_pos (by simp [hck]), hrv, hor1]
    dsimp only [pyGetAttr]
    rw [hor2]
    dsimp only [pyGetAttr]
    exact ⟨_, rfl⟩
  · rfl

theorem extract_items_attr_safety_amended_witness :
    ∃ r : List Record × Json,
      extractItemsJson (.obj [("response", .obj [("body", .obj [])])]) = .ok r :=
  extract_items_attr_safety_amended.1 [("response", .obj [("body", .obj [])])]
    (.obj [("body", .obj [])]) rfl rfl

/-- Claim C4: `infer_type` classifies by first-matching-rule order over the
cleaned values (nulls dropped, whitespace trimmed, empties dropped):
unknown if nothing remains; date if the date-shaped fraction is at least
0.9; else int/float split on the integer-only fraction when the
number-shaped fraction is at least 0.9; else string — together with the
spec's five concrete examples. -/
theorem infer_type_classification :
    (∀ ser : List (Option Json), cleanSeries ser = [] → infer_type ser = "unknown") ∧
    (∀ ser : List (Option Json), cleanSeries ser ≠ [] →
        (9 : ℚ) / 10 ≤
          ((cleanSeries ser).countP isDateString : ℚ) / ((cleanSeries ser).length : ℚ) →
        infer_type ser = "date") ∧
    (∀ ser : List (Option Json), cleanSeries ser ≠ [] →
        ¬ (9 : ℚ) / 10 ≤
          ((cleanSeries ser).countP isDateString : ℚ) / ((cleanSeries ser).length : ℚ) →
        (9 : ℚ) / 10 ≤
          ((cleanSeries ser).countP isNumberString : ℚ) / ((cleanSeries ser).length : ℚ) →
        (9 : ℚ) / 10 ≤
          ((cleanSeries ser).countP isIntString : ℚ) / ((cleanSeries ser).length : ℚ) →
        infer_type ser = "int") ∧
    (∀ ser : List (Option Json), cleanSeries ser ≠ [] →
        ¬ (9 : ℚ) / 10 ≤
          ((cleanSeries ser).countP isDateString : ℚ) / ((cleanSeries ser).length : ℚ) →
        (9 : ℚ) / 10 ≤
          ((cleanSeries ser).countP isNumberString : ℚ) / ((cleanSeries ser).length : ℚ) →
        ¬ (9 : ℚ) / 10 ≤
          ((cleanSeries ser).countP isIntString : ℚ) / ((cleanSeries ser).length : ℚ) →
        infer_type ser = "float") ∧
    (∀ ser : List (Option Json), cleanSeries ser ≠ [] →
        ¬ (9 : ℚ) / 10 ≤
          ((cleanSeries ser).countP isDateString : ℚ) / ((cleanSeries ser).length : ℚ) →
        ¬ (9 : ℚ) / 10 ≤
          ((cleanSeries ser).countP isNumberString : ℚ) / ((cleanSeries ser).length : ℚ) →
        infer_type ser = "string") ∧
    infer_type [some (.str "20250101"), some (.str "20250102"), some (.str "20250103")]
      = "date" ∧
    infer_type [some (.str "1"), some (.str "2"), some (.str "3"), some (.str "x")]
      = "string" ∧
    infer_type [some (.str "1"), some (.str "2"), some (.str "3.5")] = "float" ∧
    infer_type [some (.str "1"), some (.str "2"), some (.str "3")] = "int" ∧
    infer_type [] = "unknown" ∧
    infer_type [none, none] = "unknown" := by
  refine ⟨?_, ?_, ?_, ?_, ?_, ?_, ?_, ?_, ?_, rfl, rfl⟩
  · intro ser h
    simp only [infer_type]
    rw [if_pos h]
  · intro ser h hd
    simp only [infer_type]
    rw [if_neg h, if_pos hd]
  · intro ser h hd hn hi
    simp only [infer_type]
    rw [if_neg h, if_neg hd, if_pos hn, if_pos hi]
  · intro ser h hd hn hi
    simp only [infer_type]
    rw [if_neg h, if_neg hd, if_pos hn, if_neg hi]
  · intro ser h hd hn
    simp only [infer_type]
    rw [if_neg h, if_neg hd, if_neg hn]
  · rw [infer_type_eq_nat]
    decide
  · rw [infer_type_eq_nat]
    decide
  · rw [infer_type_eq_nat]
    decide
  · rw [infer_type_eq_nat]
    decide

theorem infer_type_classification_witness :
    infer_type [some (.str " ")] = "unknown" ∧
    infer_type [some (.str "20250101"), some (.str "20250102")] = "date" := by
  constructor
  · exact infer_type_classification.1 [some (.str " ")] (by decide)
  · refine infer_type_classification.2.1 [some (.str "20250101"), some (.str "20250102")]
      (by decide) ?_
    rw [show cleanSeries [some (.str "20250101"), some (.str "20250102")]
        = ["20250101", "20250102"] from by decide]
    rw [show List.countP isDateString ["20250101", "20250102"] = 2 from by decide]
    norm_num

theorem round4_one : round4 1 = 1 := by
  unfold round4 roundHalfEven
  rw [show ((1 : ℚ) * 10000) = ((10000 : ℤ) : ℚ) from by norm_num]
  rw [Int.floor_intCast]
  norm_num

/-- The frame of a three-record dataset whose field `a` is present in one
record of three. -/
def dfThird : DFrame := mkDF [[("a", .str "1")], [], []]

/-- The frame of a two-record dataset whose field `a` holds only blank
strings (non-null, but empty after stripping). -/
def dfBlank : DFrame := mkDF [[("a", .str "")], [("a", .str " ")]]

/-- Claim C5, counterexample to the claim as stated: for a column present in
1 of 3 records the stored `missing_rate` is `round(2/3, 4) = 0.6667`, which
is not equal to `1 - 1/3`; the claim's exact-quotient reading fails because
the source rounds to 4 decimal places. -/
theorem missing_rate_rounding_counterexample :
    (colProfile dfThird "a").missing_rate = 6667 / 10000 ∧
    ((6667 : ℚ) / 10000) ≠ 1 - 1 / 3 := by
  constructor
  · have h0 : (colProfile dfThird "a").missing_rate = round4 (1 - (1 : ℚ) / 3) := rfl
    rw [h0, show (1 : ℚ) - 1 / 3 = 2 / 3 from by norm_num]
    unfold round4 roundHalfEven
    rw [show (2 : ℚ) / 3 * 10000 = 20000 / 3 from by norm_num]
    rw [show (⌊(20000 : ℚ) / 3⌋ : ℤ) = 6666 from by rw [Int.floor_eq_iff]; norm_num]
    norm_num
  · norm_num

/-- Claim C5 as amended: every profile `summarize` emits belongs to one of
the frame's columns; for a frame with at least one record the stored
`missing_rate` is `1 - nonnull/total` rounded to 4 decimal places
(banker's rounding) rather than the exact quotient; for a zero-record frame
that still has a column the stored value is 1.0, not 0; and a zero-record
dataset has no columns at all, so `summarize` raises instead of producing
any `missing_rate`. -/
theorem missing_rate_amended :
    (∀ (df : DFrame) (ps : List ColProfile) (p : ColProfile),
        summarize_dataframe df = .ok ps → p ∈ ps →
        p.column ∈ df.cols ∧ p = colProfile df p.column) ∧
    (∀ (df : DFrame) (c : String), df.rows ≠ [] →
        (colProfile df c).missing_rate =
          round4 (1 - (((colSeries df c).filterMap id).length : ℚ) / (df.rows.length : ℚ))) ∧
    (∀ (df : DFrame) (c : String), df.rows = [] →
        (colProfile df c).missing_rate = 1) ∧
    summarize_dataframe (mkDF []) = .error .keyError := by
  refine ⟨?_, ?_, ?_, rfl⟩
  · intro df ps p h hp
    exact summarize_mem h hp
  · intro df c h
    have hl : df.rows.length ≠ 0 := fun h0 => h (List.length_eq_zero.mp h0)
    unfold colProfile
    dsimp only
    rw [if_pos hl]
  · intro df c h
    unfold colProfile
    dsimp only
    rw [if_neg (by rw [h]; simp)]
    rw [show (1 : ℚ) - 0 = 1 from by norm_num]
    exact round4_one

theorem missing_rate_amended_witness :
    (colProfile dfThird "a").missing_rate =
      round4 (1 - (((colSeries dfThird "a").filterMap id).length : ℚ) /
        (dfThird.rows.length : ℚ)) :=
  missing_rate_amended.2.1 dfThird "a" (by simp [dfThird, mkDF])

/-- Claim C6, counterexample to the claim as stated: a column whose two
values are blank strings infers as `unknown`, yet its `min`/`max` are the
string-length extrema 0 and 1 rather than both null — the source's `else`
branch covers `unknown` together with `string` whenever non-null values
exist. -/
theorem minmax_unknown_counterexample :
    (colProfile dfBlank "a").inferred_type = "unknown" ∧
    (colProfile dfBlank "a").minv = some (.int 0) ∧
    (colProfile dfBlank "a").maxv = some (.int 1) ∧
    summarize_dataframe dfBlank = .ok [colProfile dfBlank "a"] ∧
    some (MMVal.int 0) ≠ (none : Option MMVal) := by
  exact ⟨rfl, rfl, rfl, rfl, by simp⟩

/-- Claim C6 as amended: a profile's `min`/`max` are `minMaxOf` applied to
the inferred type and the non-null values; that branch gives the numeric
extrema (as floats) of the `to_numeric`-coercible values for int/float, the
lexicographic extrema of the stripped non-empty stringified values for
date, and the string-length extrema for every other inferred type —
`string`, but also `unknown` when non-null (all-blank) values exist; both
are null whenever the column has no non-null values. -/
theorem minmax_semantics_amended :
    (∀ (df : DFrame) (c : String),
        (colProfile df c).inferred_type = infer_type (colSeries df c) ∧
        (colProfile df c).minv =
          (minMaxOf (infer_type (colSeries df c)) ((colSeries df c).filterMap id)).1 ∧
        (colProfile df c).maxv =
          (minMaxOf (infer_type (colSeries df c)) ((colSeries df c).filterMap id)).2) ∧
    (∀ (inferred : String) (nonnull : List Json),
        inferred = "int" ∨ inferred = "float" →
        minMaxOf inferred nonnull =
          (if (nonnull.filterMap toNumeric?).isEmpty then (none, none)
           else (some (.flt (qListMin (nonnull.filterMap toNumeric?))),
                 some (.flt (qListMax (nonnull.filterMap toNumeric?)))))) ∧
    (∀ nonnull : List Json,
        minMaxOf "date" nonnull =
          (if ((nonnull.map (fun j => pyStrip (pyStr j))).filter (fun s => s != "")).isEmpty
           then (none, none)
           else
            (some (.str (sListMin
              ((nonnull.map (fun j => pyStrip (pyStr j))).filter (fun s => s != "")))),
             some (.str (sListMax
              ((nonnull.map (fun j => pyStrip (pyStr j))).filter (fun s => s != ""))))))) ∧
    (∀ (inferred : String) (nonnull : List Json),
        inferred = "string" ∨ inferred = "unknown" →
        minMaxOf inferred nonnull =
          (if (nonnull.map pyStr).isEmpty then (none, none)
           else
            (some (.int (natListMin ((nonnull.map pyStr).map String.length) : ℤ)),
             some (.int (natListMax ((nonnull.map pyStr).map String.length) : ℤ))))) ∧
    (∀ inferred : String, minMaxOf inferred [] = (none, none)) := by
  refine ⟨?_, ?_, ?_, ?_, ?_⟩
  · intro df c
    exact ⟨rfl, rfl, rfl⟩
  · intro inferred nonnull h
    unfold minMaxOf
    rw [if_pos h]
  · intro nonnull
    unfold minMaxOf
    rw [if_neg (by simp), if_pos rfl]
  · intro inferred nonnull h
    unfold minMaxOf
    rcases h with h | h <;>
      subst h <;>
      rw [if_neg (by simp), if_neg (by simp)]
  · intro inferred
    unfold minMaxOf
    by_cases h1 : inferred = "int" ∨ inferred = "float"
    · rw [if_pos h1]
      simp
    · rw [if_neg h1]
      by_cases h2 : inferred = "date"
      · rw [if_pos h2]
        simp
      · rw [if_neg h2]
        simp

theorem minmax_semantics_amended_witness :
    minMaxOf "unknown" [.str ""] =
      (if (([Json.str ""].map pyStr)).isEmpty then (none, none)
       else
        (some (.int (natListMin (([Json.str ""].map pyStr).map String.length) : ℤ)),
         some (.int (natListMax (([Json.str ""].map pyStr).map String.length) : ℤ)))) ∧
    minMaxOf "int" [] = (none, none) :=
  ⟨minmax_semantics_amended.2.2.2.1 "unknown" [.str ""] (Or.inr rfl),
   minmax_semantics_amended.2.2.2.2 "int"⟩

/-- Claim C7: applied to the frame of a zero-record dataset (which has no
columns), `summarize_dataframe` does not return an empty profile — the
summary row list is empty and `pd.DataFrame([]).sort_values("column")`
raises `KeyError` on the missing label, so the call raises. -/
theorem summarize_empty_dataset_raises :
    summarize_dataframe (mkDF []) = .error .keyError := rfl

end ApiExplorer
